import Mathlib

/-!
Verification development for the NarratorFlowAI service (src/main.py).

The service logic is embedded shallowly:
* polarity scores (Python floats holding TextBlob polarities and the literal
  thresholds 0.2 and 0.1) are modelled as rationals `ℚ`; every comparison the
  code performs on them is decidable and exact at the inputs considered here;
* `get_structural_feedback` (src/main.py lines 44-61) is translated statement
  by statement into a pure function, and a second, state-passing translation
  `get_structural_feedback_run` records what happens to the `polarities`
  argument itself;
* the `/analyze-narrative` handler (lines 75-99) is embedded as a function of
  the polarity sequence produced by the external sentiment scorer and of the
  random identifier produced by `uuid.uuid4()`, both of which are external
  inputs to the logic under specification;
* the `/plots/{filename}` handler (lines 103-105) is embedded over an abstract
  filesystem (a map from path to optional file content).
-/

namespace NarratorFlowAI

/-! ## Feedback rules: src/main.py lines 44-61 -/

/-- Message appended by rule 1 (src/main.py line 53). -/
def flatArcMsg : String :=
  "The emotional arc is a bit flat. Try adding more variation in tone to make it more engaging."

/-- Message appended by rule 2 (src/main.py line 56). -/
def lowEndMsg : String :=
  "The sentiment at the end is low. A stronger, more positive conclusion could make a better impression."

/-- Fallback message (src/main.py line 59). -/
def fallbackMsg : String :=
  "Great job! The narrative flow seems well-structured."

/-- Python `max(polarities)`: maximum of a list, used only under the guard
`len(polarities) > 2`; the value at `[]` is an arbitrary default. -/
def listMax : List ℚ → ℚ
  | [] => 0
  | x :: xs => xs.foldl max x

/-- Python `min(polarities)`: minimum of a list, used only under the guard
`len(polarities) > 2`; the value at `[]` is an arbitrary default. -/
def listMin : List ℚ → ℚ
  | [] => 0
  | x :: xs => xs.foldl min x

/-- Python `polarities[-1]`: the last element, used only under the guard
`len(polarities) > 0`; the value at `[]` is an arbitrary default. -/
def lastElem : List ℚ → ℚ
  | [] => 0
  | [x] => x
  | _ :: x :: xs => lastElem (x :: xs)

/-- `get_structural_feedback` (src/main.py lines 44-61), translated statement
by statement: start from the empty feedback list; if `len(polarities) > 2` and
`max - min < 0.2` append the flat-arc message; if `len(polarities) > 0` and
`polarities[-1] < 0.1` append the low-ending message; if the feedback list is
still empty append the fallback message. -/
def get_structural_feedback (polarities : List ℚ) : List String :=
  let fb0 : List String := []
  let fb1 : List String :=
    if 2 < polarities.length then
      (if listMax polarities - listMin polarities < 2/10 then fb0 ++ [flatArcMsg] else fb0)
    else fb0
  let fb2 : List String :=
    if 0 < polarities.length ∧ lastElem polarities < 1/10 then fb1 ++ [lowEndMsg] else fb1
  if fb2 = [] then fb2 ++ [fallbackMsg] else fb2

/-- Condition of rule 1 (src/main.py lines 49-52): more than 2 entries and
polarity range strictly below 0.2. -/
def rule1Fires (ps : List ℚ) : Prop :=
  2 < ps.length ∧ listMax ps - listMin ps < 2/10

/-- Condition of rule 2 (src/main.py line 55): non-empty and last entry
strictly below 0.1. -/
def rule2Fires (ps : List ℚ) : Prop :=
  0 < ps.length ∧ lastElem ps < 1/10

instance (ps : List ℚ) : Decidable (rule1Fires ps) := by
  unfold rule1Fires; infer_instance

instance (ps : List ℚ) : Decidable (rule2Fires ps) := by
  unfold rule2Fires; infer_instance

/-- State-passing translation of `get_structural_feedback`: the state is the
pair (polarities, feedback) and each Python statement becomes one state
transformer. Rule 1 (src/main.py lines 49-53): read-only access to
`polarities` via `len`, `max`, `min`; may append to `feedback`. -/
def rule1Step (st : List ℚ × List String) : List ℚ × List String :=
  if 2 < st.1.length then
    (if listMax st.1 - listMin st.1 < 2/10 then (st.1, st.2 ++ [flatArcMsg]) else st)
  else st

/-- Rule 2 (src/main.py lines 55-56) as a state transformer. -/
def rule2Step (st : List ℚ × List String) : List ℚ × List String :=
  if 0 < st.1.length ∧ lastElem st.1 < 1/10 then (st.1, st.2 ++ [lowEndMsg]) else st

/-- Fallback (src/main.py lines 58-59) as a state transformer. -/
def fallbackStep (st : List ℚ × List String) : List ℚ × List String :=
  if st.2 = [] then (st.1, st.2 ++ [fallbackMsg]) else st

/-- The body of `get_structural_feedback` run as a sequence of state
transformers, returning the final state: the `polarities` variable after the
call together with the returned feedback list. -/
def get_structural_feedback_run (ps : List ℚ) : List ℚ × List String :=
  fallbackStep (rule2Step (rule1Step (ps, [])))

/-! ## Shared helper lemmas -/

theorem flatArc_ne_lowEnd : flatArcMsg ≠ lowEndMsg := by decide

theorem flatArc_ne_fallback : flatArcMsg ≠ fallbackMsg := by decide

theorem lowEnd_ne_fallback : lowEndMsg ≠ fallbackMsg := by decide

/-- Closed form of `get_structural_feedback` by the two rule conditions. -/
theorem get_structural_feedback_eq (ps : List ℚ) :
    get_structural_feedback ps =
      if rule1Fires ps then
        (if rule2Fires ps then [flatArcMsg, lowEndMsg] else [flatArcMsg])
      else (if rule2Fires ps then [lowEndMsg] else [fallbackMsg]) := by
  simp only [get_structural_feedback, rule1Fires, rule2Fires]
  split_ifs <;> first | rfl | tauto

/-- `rule1Step` on an explicit pair: first component unchanged. -/
theorem rule1Step_pair (ps : List ℚ) (fb : List String) :
    rule1Step (ps, fb) = (ps, if rule1Fires ps then fb ++ [flatArcMsg] else fb) := by
  simp only [rule1Step, rule1Fires]
  split_ifs <;> first | rfl | tauto

/-- `rule2Step` on an explicit pair: first component unchanged. -/
theorem rule2Step_pair (ps : List ℚ) (fb : List String) :
    rule2Step (ps, fb) = (ps, if rule2Fires ps then fb ++ [lowEndMsg] else fb) := by
  simp only [rule2Step, rule2Fires]
  split_ifs <;> rfl

/-- `fallbackStep` on an explicit pair: first component unchanged. -/
theorem fallbackStep_pair (ps : List ℚ) (fb : List String) :
    fallbackStep (ps, fb) = (ps, if fb = [] then fb ++ [fallbackMsg] else fb) := by
  simp only [fallbackStep]
  split_ifs <;> rfl

/-! ## Claim theorems about the feedback rules -/

/-- C2: for every polarity sequence, including the empty one, the feedback
list returned by `get_structural_feedback` is non-empty: when neither
threshold rule appends a message the fallback message is substituted. -/
theorem feedback_never_empty :
    ∀ ps : List ℚ, get_structural_feedback ps ≠ [] := by
  intro ps
  rw [get_structural_feedback_eq]
  split_ifs <;> simp

/-- Witness for C2 at the concrete input `[]`. -/
theorem feedback_never_empty_witness :
    get_structural_feedback ([] : List ℚ) ≠ [] :=
  feedback_never_empty []

/-- C3: the flat-arc message is in the feedback exactly when the sequence has
more than 2 entries and its range is below 0.2; and on `[0.5, 0.5, 0.5, 0.5]`
the feedback is exactly the flat-arc message. -/
theorem flatArc_mem_iff :
    (∀ ps : List ℚ, flatArcMsg ∈ get_structural_feedback ps ↔ rule1Fires ps) ∧
    get_structural_feedback [1/2, 1/2, 1/2, 1/2] = [flatArcMsg] := by
  constructor
  · intro ps
    rw [get_structural_feedback_eq]
    split_ifs with h1 h2 h2 <;>
      simp [h1, flatArc_ne_lowEnd, flatArc_ne_fallback]
  · rw [get_structural_feedback_eq]
    norm_num [rule1Fires, rule2Fires, listMax, listMin, lastElem]

/-- C4: the low-ending message is in the feedback exactly when the sequence is
non-empty and its last entry is below 0.1; and on `[0.05, 0.06]` the feedback
is exactly the low-ending message (rule 1 does not apply at length 2). -/
theorem lowEnd_mem_iff :
    (∀ ps : List ℚ, lowEndMsg ∈ get_structural_feedback ps ↔ rule2Fires ps) ∧
    get_structural_feedback [5/100, 6/100] = [lowEndMsg] := by
  constructor
  · intro ps
    rw [get_structural_feedback_eq]
    split_ifs with h1 h2 h2 <;>
      simp [h2, flatArc_ne_lowEnd.symm, lowEnd_ne_fallback]
  · rw [get_structural_feedback_eq]
    norm_num [rule1Fires, rule2Fires, lastElem]

/-- C5: the fallback message appears in the feedback exactly when the feedback
is exactly the one-element list holding it, which happens exactly when neither
rule 1 nor rule 2 fires; and on `[-0.9, 0.9, -0.9, 0.9]` the feedback is
exactly the fallback message. -/
theorem fallback_iff :
    (∀ ps : List ℚ,
        (fallbackMsg ∈ get_structural_feedback ps ↔
          get_structural_feedback ps = [fallbackMsg]) ∧
        (get_structural_feedback ps = [fallbackMsg] ↔
          ¬ rule1Fires ps ∧ ¬ rule2Fires ps)) ∧
    get_structural_feedback [-9/10, 9/10, -9/10, 9/10] = [fallbackMsg] := by
  constructor
  · intro ps
    rw [get_structural_feedback_eq]
    split_ifs with h1 h2 h2 <;>
      simp [h1, h2, flatArc_ne_fallback, flatArc_ne_fallback.symm,
        lowEnd_ne_fallback, lowEnd_ne_fallback.symm]
  · rw [get_structural_feedback_eq]
    norm_num [rule1Fires, rule2Fires, listMax, listMin, lastElem]

/-- C9: the feedback list never has more than 2 entries; it is exactly
flat-arc followed by low-ending exactly when both rules fire, and then no
fallback message appears; on `[0.0, 0.05, 0.05]` both rules fire. -/
theorem feedback_at_most_two :
    (∀ ps : List ℚ,
        (get_structural_feedback ps).length ≤ 2 ∧
        (get_structural_feedback ps = [flatArcMsg, lowEndMsg] ↔
          rule1Fires ps ∧ rule2Fires ps) ∧
        (rule1Fires ps ∧ rule2Fires ps → fallbackMsg ∉ get_structural_feedback ps)) ∧
    get_structural_feedback [0, 5/100, 5/100] = [flatArcMsg, lowEndMsg] := by
  constructor
  · intro ps
    rw [get_structural_feedback_eq]
    split_ifs with h1 h2 h2 <;>
      simp [h1, h2, flatArc_ne_lowEnd, flatArc_ne_fallback.symm, lowEnd_ne_fallback.symm]
  · rw [get_structural_feedback_eq]
    norm_num [rule1Fires, rule2Fires, listMax, listMin, lastElem]

/-- Witness for C9: both rules fire on the concrete input `[0.0, 0.05, 0.05]`,
so the fallback message is absent there. -/
theorem feedback_at_most_two_witness :
    fallbackMsg ∉ get_structural_feedback [0, 5/100, 5/100] :=
  (feedback_at_most_two.1 [0, 5/100, 5/100]).2.2
    (by norm_num [rule1Fires, rule2Fires, listMax, listMin, lastElem])

/-- C7: running the feedback rules as state transformers over the pair
(polarities, feedback) returns the input polarity sequence unchanged — same
elements, same order — alongside the same feedback list that the pure
translation produces. The thresholds appearing in the transformers are the
literal constants 2, 0.2 and 0.1, taken from no input. -/
theorem feedback_preserves_input :
    ∀ ps : List ℚ, get_structural_feedback_run ps = (ps, get_structural_feedback ps) := by
  intro ps
  unfold get_structural_feedback_run
  rw [rule1Step_pair, rule2Step_pair, fallbackStep_pair, get_structural_feedback_eq]
  by_cases h1 : rule1Fires ps <;> by_cases h2 : rule2Fires ps <;> simp [h1, h2]

/-- Witness for C7 at the concrete input `[0.3]`. -/
theorem feedback_preserves_input_witness :
    get_structural_feedback_run [3/10] = ([3/10], get_structural_feedback [3/10]) :=
  feedback_preserves_input [3/10]

/-- Witness for C3: rule 1 fires on the concrete input `[0.5, 0.5, 0.5, 0.5]`,
so the flat-arc message is in the feedback there. -/
theorem flatArc_mem_iff_witness :
    flatArcMsg ∈ get_structural_feedback [1/2, 1/2, 1/2, 1/2] :=
  (flatArc_mem_iff.1 [1/2, 1/2, 1/2, 1/2]).mpr
    (by norm_num [rule1Fires, listMax, listMin])

/-- Witness for C4: rule 2 fires on the concrete input `[0.05, 0.06]`, so the
low-ending message is in the feedback there. -/
theorem lowEnd_mem_iff_witness :
    lowEndMsg ∈ get_structural_feedback [5/100, 6/100] :=
  (lowEnd_mem_iff.1 [5/100, 6/100]).mpr
    (by norm_num [rule2Fires, lastElem])

/-- Witness for C5: the fallback message is in the feedback on the concrete
input `[-0.9, 0.9, -0.9, 0.9]`. -/
theorem fallback_iff_witness :
    fallbackMsg ∈ get_structural_feedback [-9/10, 9/10, -9/10, 9/10] :=
  ((fallback_iff.1 [-9/10, 9/10, -9/10, 9/10]).1).mpr fallback_iff.2

/-! ## Analysis endpoint: src/main.py lines 75-99 -/

/-- The `analysis_summary` object of the response (src/main.py lines 93-96). -/
structure AnalysisSummary where
  num_sentences : ℕ
  average_polarity : ℚ
deriving DecidableEq

/-- The JSON object returned by the analysis endpoint (src/main.py
lines 92-99). -/
structure AnalysisResponse where
  analysis_summary : AnalysisSummary
  feedback : List String
  emotional_arc_plot_url : String
deriving DecidableEq

/-- Filename generated at src/main.py line 85: `plot_<id>.png`, where the id
is drawn from the external `uuid.uuid4()` source. -/
def plot_filename (u : String) : String :=
  "plot_" ++ u ++ ".png"

/-- `analyze_narrative_endpoint` (src/main.py lines 75-99) as a function of
the polarity sequence the external sentiment scorer returns for the request
text and of the identifier drawn for this request. `average_polarity` mirrors
`sum(polarities) / len(polarities) if polarities else 0`. -/
def analyze_narrative_endpoint (polarities : List ℚ) (u : String) : AnalysisResponse :=
  let feedback := get_structural_feedback polarities
  let filename := plot_filename u
  let plot_url := "/plots/" ++ filename
  { analysis_summary :=
      { num_sentences := polarities.length
        average_polarity :=
          if polarities.isEmpty then 0 else polarities.sum / (polarities.length : ℚ) }
    feedback := feedback
    emotional_arc_plot_url := plot_url }

/-- C6: the sentence count of the response is the length of the polarity
sequence;
the average polarity is the arithmetic mean for non-empty sequences and 0 for
the empty one; on `[1.0, -1.0, 0.5]` the average is `0.5/3`; for the empty
sequence the response has count 0, average 0, and exactly the fallback
feedback. -/
theorem analysis_summary_correct :
    (∀ (ps : List ℚ) (u : String),
        (analyze_narrative_endpoint ps u).analysis_summary.num_sentences = ps.length ∧
        (ps ≠ [] →
          (analyze_narrative_endpoint ps u).analysis_summary.average_polarity =
            ps.sum / (ps.length : ℚ))) ∧
    (analyze_narrative_endpoint [1, -1, 1/2] ("u")).analysis_summary.average_polarity
      = (1/2) / 3 ∧
    (analyze_narrative_endpoint [] ("u")).analysis_summary.num_sentences = 0 ∧
    (analyze_narrative_endpoint [] ("u")).analysis_summary.average_polarity = 0 ∧
    (analyze_narrative_endpoint [] ("u")).feedback = [fallbackMsg] := by
  refine ⟨fun ps u => ⟨rfl, fun h => ?_⟩, ?_, ?_, ?_, ?_⟩
  · simp [analyze_narrative_endpoint, h]
  · norm_num [analyze_narrative_endpoint]
  · rfl
  · rfl
  · rw [show (analyze_narrative_endpoint [] ("u")).feedback = get_structural_feedback []
        from rfl, get_structural_feedback_eq]
    norm_num [rule1Fires, rule2Fires]

/-- Witness for C6: the mean clause applied at the concrete non-empty input
`[1.0]`. -/
theorem analysis_summary_correct_witness :
    (analyze_narrative_endpoint [1] ("u")).analysis_summary.average_polarity =
      List.sum [(1 : ℚ)] / (List.length [(1 : ℚ)] : ℚ) :=
  (analysis_summary_correct.1 [1] ("u")).2 (by decide)

/-- Supporting fact for the concurrency model: the naming scheme
`plot_<id>.png` of src/main.py line 85 is injective in the identifier, so two
requests that draw distinct identifiers write distinct plot artifacts.
Whether two concurrent requests can ever draw the same identifier is a
property of the external random `uuid.uuid4()` source, not of this code. -/
theorem plot_filename_inj (u v : String) (h : plot_filename u = plot_filename v) : u = v := by
  have hd := congrArg String.data h
  simp only [plot_filename, String.data_append] at hd
  exact String.ext (List.append_cancel_left (List.append_cancel_right hd))

/-! ## Plot serving: src/main.py lines 103-105 -/

/-- Abstract filesystem: maps a path to the content of the file stored there,
when one exists. -/
def FileSystem : Type :=
  String → Option String

/-- A filesystem holding no files; in particular the plots directory holds no
file named `nonexistent.png`. -/
def emptyFS : FileSystem :=
  fun _ => none

/-- Outcome of an HTTP request as observed by the caller: a success carrying
the served bytes, a not-found response, or an unhandled failure surfaced as a
server error. -/
inductive HttpOutcome where
  | ok (body : String)
  | notFound
  | serverError (msg : String)
deriving DecidableEq

/-- True when the path is absolute, that is, begins with a slash. -/
def isAbsolutePath (p : String) : Bool :=
  match p.data with
  | [] => false
  | c :: _ => c == '/'

/-- Python `os.path.join(dir, name)` for POSIX paths as called at src/main.py
line 105, where `dir` is the literal "plots" (no trailing slash): an absolute
`name` discards `dir`; otherwise the two parts are joined with a slash. No
other processing of `name` is performed. -/
def os_path_join (dir name : String) : String :=
  if isAbsolutePath name then name else dir ++ "/" ++ name

/-- Model of the external Starlette `FileResponse` collaborator that
`serve_plot` returns: constructing the response only records the path; when
the response is sent the path is looked up, the file content is streamed on
success, and a missing file raises
RuntimeError("File at path <path> does not exist."). The handler does not
catch it, so it reaches the caller as an unhandled server error — the send
path contains no branch producing a not-found response. -/
def fileResponseSend (fs : FileSystem) (path : String) : HttpOutcome :=
  match fs path with
  | some body => HttpOutcome.ok body
  | none => HttpOutcome.serverError ("File at path " ++ path ++ " does not exist.")

/-- `serve_plot` (src/main.py lines 103-105): return
`FileResponse(os.path.join("plots", filename))` with no validation of
`filename` and no existence check, observed at the point the response is sent
over the given filesystem. -/
def serve_plot (fs : FileSystem) (filename : String) : HttpOutcome :=
  fileResponseSend fs (os_path_join ("plots") filename)

/-- Never produced: `serve_plot` has no code path yielding a not-found
response, whatever the filesystem and the filename. -/
theorem serve_plot_never_notFound (fs : FileSystem) (filename : String) :
    serve_plot fs filename ≠ HttpOutcome.notFound := by
  unfold serve_plot fileResponseSend
  cases fs (os_path_join ("plots") filename) <;> simp

/-- C1: the claim fails on the code. At the concrete request
`GET /plots/nonexistent.png` over a filesystem in which `plots/nonexistent.png`
does not exist, the caller receives the unhandled RuntimeError of the
`FileResponse` send — a server error, not a not-found condition. -/
theorem serve_plot_missing_file_not_notFound :
    serve_plot emptyFS ("nonexistent.png") =
      HttpOutcome.serverError ("File at path plots/nonexistent.png does not exist.") ∧
    serve_plot emptyFS ("nonexistent.png") ≠ HttpOutcome.notFound ∧
    emptyFS (os_path_join ("plots") ("nonexistent.png")) = none := by
  decide

/-! ## Path traversal through serve_plot -/

/-- Splits a character list at every occurrence of the separator. -/
def charSplit (sep : Char) : List Char → List (List Char)
  | [] => [[]]
  | c :: cs =>
    match charSplit sep cs with
    | [] => [[c]]
    | g :: gs => if c == sep then [] :: g :: gs else (c :: g) :: gs

/-- Components of a POSIX path: the path split at slashes. -/
def pathComponents (p : String) : List String :=
  (charSplit '/' p.data).map String.mk

/-- One step of lexical dot-dot resolution over a reversed component stack:
empty and `.` components vanish, `..` pops the previous real component, and
any other component is pushed. -/
def normStep (stack : List String) (comp : String) : List String :=
  if comp = "" ∨ comp = "." then stack
  else if comp = ".." then
    match stack with
    | [] => [".."]
    | top :: rest => if top = ".." then comp :: top :: rest else rest
  else comp :: stack

/-- Joins path components with slashes. -/
def joinComponents : List String → String
  | [] => ""
  | [c] => c
  | c :: cs => c ++ "/" ++ joinComponents cs

/-- Lexical normalization of a relative POSIX path: resolves `.` and `..`
components and drops redundant slashes (the relative-path fragment of
`os.path.normpath`). -/
def normalizePath (p : String) : String :=
  joinComponents (((pathComponents p).foldl normStep []).reverse)

/-- Whether a relative path stays inside the directory `dir` under lexical
normalization: the normalized path is `dir` itself or begins with
`dir ++ "/"`. -/
def staysWithin (dir p : String) : Bool :=
  normalizePath p == dir || (dir ++ "/").data.isPrefixOf (normalizePath p).data

/-- C10: `serve_plot` applies no validation to `filename` — for every
filesystem and every filename it serves exactly the path
`os.path.join("plots", filename)` — and for the traversal filename
`../main.py` the served path is `plots/../main.py`, which normalizes to
`main.py` and so lies outside the plots output directory. -/
theorem serve_plot_no_validation :
    (∀ (fs : FileSystem) (filename : String),
        serve_plot fs filename = fileResponseSend fs (os_path_join ("plots") filename)) ∧
    os_path_join ("plots") ("../main.py") = "plots/../main.py" ∧
    normalizePath (os_path_join ("plots") ("../main.py")) = "main.py" ∧
    staysWithin ("plots") (os_path_join ("plots") ("../main.py")) = false := by
  refine ⟨fun fs filename => rfl, ?_, ?_, ?_⟩ <;> decide

/-- Witness for C10: the no-validation clause applied at a concrete
filesystem and filename. -/
theorem serve_plot_no_validation_witness :
    serve_plot emptyFS ("x.png") = fileResponseSend emptyFS (os_path_join ("plots") ("x.png")) :=
  serve_plot_no_validation.1 emptyFS ("x.png")

end NarratorFlowAI
